import Mathlib

/-!
Shallow embedding of the AnekaZoo animal CRUD service (main.go).

The Go program keeps animals in `map[int]Animal` guarded by a mutex; every
store operation holds the lock for its whole duration, so each operation is
an atomic function from store state to store state.  We model the map as an
association list with unique keys (`mapLookup`/`mapInsert`/`mapErase` mirror
Go's map read, write and delete), Go `int` as `Int`, and Go's
`(value, error)` returns as `Except String value`, carrying the exact
`fmt.Errorf` message strings.  HTTP handlers are modelled as functions from
the already-decoded request parts (path id parse result, body decode result)
to a status code, the new store state and the optionally encoded record.
-/

set_option autoImplicit false

namespace AnekaZoo

/-- Animal record: mirrors Go struct `Animal` with fields ID, Name, Class, Legs. -/
structure Animal where
  ID : Int
  Name : String
  Class : String
  Legs : Int
deriving DecidableEq, Repr

/-- Read of Go map `animals[k]`: first (and only, keys are unique) entry with key `k`. -/
def mapLookup : List (Int × Animal) → Int → Option Animal
  | [], _ => none
  | (k', v) :: rest, k => if k' = k then some v else mapLookup rest k

/-- Write of Go map `animals[k] = v`: overwrite in place if the key is present,
otherwise add a new entry. -/
def mapInsert : List (Int × Animal) → Int → Animal → List (Int × Animal)
  | [], k, v => [(k, v)]
  | (k', v') :: rest, k, v =>
      if k' = k then (k, v) :: rest else (k', v') :: mapInsert rest k v

/-- Go `delete(animals, k)`: remove the entry with key `k`, if any. -/
def mapErase (m : List (Int × Animal)) (k : Int) : List (Int × Animal) :=
  m.filter (fun p => p.1 ≠ k)

/-- In-memory store: mirrors Go struct `InMemoryAnimalStore` (the mutex has no
sequential content; `animals` is the map, `nextID` the auto-increment counter). -/
structure InMemoryAnimalStore where
  animals : List (Int × Animal)
  nextID : Int
deriving DecidableEq, Repr

/-- Go `NewInMemoryAnimalStore`: empty map, counter starts at 1. -/
def NewInMemoryAnimalStore : InMemoryAnimalStore :=
  { animals := [], nextID := 1 }

/-- Go `GetAllAnimals`: error "no animals found" on an empty map, otherwise all
stored records (Go iterates the map in unspecified order; we return them in
entry order, and state order-insensitive properties about the result). -/
def GetAllAnimals (s : InMemoryAnimalStore) : Except String (List Animal) :=
  if s.animals.length = 0 then
    .error "no animals found"
  else
    .ok (s.animals.map Prod.snd)

/-- Go `GetAnimalByID`: the record under `id`, or a not-found error. -/
def GetAnimalByID (s : InMemoryAnimalStore) (id : Int) : Except String Animal :=
  match mapLookup s.animals id with
  | some animal => .ok animal
  | none => .error ("animal with ID " ++ toString id ++ " not found")

/-- Go `CreateAnimal`: when the record's ID is 0, assign `nextID` and bump the
counter (no duplicate check on that branch); otherwise reject an already
present ID with an already-exists error; then write the record into the map. -/
def CreateAnimal (s : InMemoryAnimalStore) (animal : Animal) :
    Except String InMemoryAnimalStore :=
  if animal.ID = 0 then
    .ok { s with
            animals := mapInsert s.animals s.nextID { animal with ID := s.nextID },
            nextID := s.nextID + 1 }
  else if (mapLookup s.animals animal.ID).isSome then
    .error ("animal with ID " ++ toString animal.ID ++ " already exists")
  else
    .ok { s with animals := mapInsert s.animals animal.ID animal }

/-- Go `UpdateAnimal`: not-found error when `id` is absent; otherwise force the
record's ID to `id` and overwrite the entry. -/
def UpdateAnimal (s : InMemoryAnimalStore) (id : Int) (animal : Animal) :
    Except String InMemoryAnimalStore :=
  if (mapLookup s.animals id).isSome then
    .ok { s with animals := mapInsert s.animals id { animal with ID := id } }
  else
    .error ("animal with ID " ++ toString id ++ " not found for update")

/-- Go `UpsertAnimal`: force the record's ID to `id` and write unconditionally;
never fails. -/
def UpsertAnimal (s : InMemoryAnimalStore) (id : Int) (animal : Animal) :
    Except String InMemoryAnimalStore :=
  .ok { s with animals := mapInsert s.animals id { animal with ID := id } }

/-- Go `DeleteAnimal`: not-found error when `id` is absent, otherwise remove
the entry. -/
def DeleteAnimal (s : InMemoryAnimalStore) (id : Int) :
    Except String InMemoryAnimalStore :=
  if (mapLookup s.animals id).isSome then
    .ok { s with animals := mapErase s.animals id }
  else
    .error ("animal with ID " ++ toString id ++ " not found for deletion")

/-- Outcome of a handler call: HTTP status code, store state afterwards, and
the record encoded into the response body when the handler writes one. -/
structure HandlerResult where
  status : Nat
  store : InMemoryAnimalStore
  body : Option Animal
deriving DecidableEq, Repr

/-- Go `createAnimalHandler`: 400 on undecodable body or zero ID; then its own
existence pre-check via `GetAnimalByID` giving 409; then `CreateAnimal`
(500 on store error), 201 with the echoed record on success.  `body` is the
result of decoding the request body (`none` = decode failure). -/
def createAnimalHandler (s : InMemoryAnimalStore) (body : Option Animal) :
    HandlerResult :=
  match body with
  | none => ⟨400, s, none⟩
  | some animal =>
    if animal.ID = 0 then ⟨400, s, none⟩
    else
      match GetAnimalByID s animal.ID with
      | .ok _ => ⟨409, s, none⟩
      | .error _ =>
        match CreateAnimal s animal with
        | .error _ => ⟨500, s, none⟩
        | .ok s' => ⟨201, s', some animal⟩

/-- Go `updateAnimalHandler` (PUT): 400 on unparseable path id or undecodable
body; the body's ID is overwritten by the path id; `GetAnimalByID` decides the
branch: present leads to `UpdateAnimal` and 200, absent leads to
`UpsertAnimal` and 201; a store error in either branch would give 500.
`idParam` is the result of `strconv.Atoi` on the path id, `body` the body
decode result. -/
def updateAnimalHandler (s : InMemoryAnimalStore) (idParam : Option Int)
    (body : Option Animal) : HandlerResult :=
  match idParam with
  | none => ⟨400, s, none⟩
  | some id =>
    match body with
    | none => ⟨400, s, none⟩
    | some animal0 =>
      let animal := { animal0 with ID := id }
      match GetAnimalByID s id with
      | .ok _ =>
        match UpdateAnimal s id animal with
        | .error _ => ⟨500, s, none⟩
        | .ok s' => ⟨200, s', some animal⟩
      | .error _ =>
        match UpsertAnimal s id animal with
        | .error _ => ⟨500, s, none⟩
        | .ok s' => ⟨201, s', some animal⟩

/-- Run a sequence of `CreateAnimal` calls left to right, stopping at the
first error (used to talk about "a sequence of successful create calls"). -/
def createAll : InMemoryAnimalStore → List Animal → Except String InMemoryAnimalStore
  | s, [] => .ok s
  | s, r :: rs =>
    match CreateAnimal s r with
    | .error e => .error e
    | .ok s' => createAll s' rs

/-- Store states reachable from the fresh store by successful store mutations,
as performed by the handlers. -/
inductive Reachable : InMemoryAnimalStore → Prop
  | init : Reachable NewInMemoryAnimalStore
  | create {s s' : InMemoryAnimalStore} {r : Animal} :
      Reachable s → CreateAnimal s r = .ok s' → Reachable s'
  | update {s s' : InMemoryAnimalStore} {id : Int} {r : Animal} :
      Reachable s → UpdateAnimal s id r = .ok s' → Reachable s'
  | upsert {s s' : InMemoryAnimalStore} {id : Int} {r : Animal} :
      Reachable s → UpsertAnimal s id r = .ok s' → Reachable s'
  | delete {s s' : InMemoryAnimalStore} {id : Int} :
      Reachable s → DeleteAnimal s id = .ok s' → Reachable s'

/-- Seed record from `main`: lion. -/
def lion : Animal := { ID := 1, Name := "lion", Class := "mammal", Legs := 4 }

/-- Seed record from `main`: eagle. -/
def eagle : Animal := { ID := 2, Name := "eagle", Class := "bird", Legs := 2 }

/-- Seed record from `main`: snake. -/
def snake : Animal := { ID := 3, Name := "snake", Class := "reptile", Legs := 0 }

/-- Store state after `main` seeds the three records: all three creates have
explicit non-zero IDs, so `nextID` is still 1. -/
def seededStore : InMemoryAnimalStore :=
  { animals := [(1, lion), (2, eagle), (3, snake)], nextID := 1 }

/-- Record with the zero/unset ID, as decoded from a POST body without "id". -/
def pandaZero : Animal := { ID := 0, Name := "panda", Class := "mammal", Legs := 4 }

/-- Spec scenario record: `{"id":101,"name":"panda","class":"mammal","legs":4}`. -/
def panda101 : Animal := { ID := 101, Name := "panda", Class := "mammal", Legs := 4 }

/-- Every record stored under map key `k` has ID field `k`. -/
def KeysMatch (s : InMemoryAnimalStore) : Prop :=
  ∀ p ∈ s.animals, (Prod.snd p).ID = p.1

/-- Reading back the key just written returns the value just written. -/
theorem mapLookup_mapInsert_self (m : List (Int × Animal)) (k : Int) (v : Animal) :
    mapLookup (mapInsert m k v) k = some v := by
  induction m with
  | nil => simp [mapInsert, mapLookup]
  | cons p rest ih =>
    obtain ⟨k', v'⟩ := p
    by_cases h : k' = k
    · simp [mapInsert, h, mapLookup]
    · simp [mapInsert, h, mapLookup, ih]

/-- Reading a key just deleted returns nothing. -/
theorem mapLookup_mapErase_self (m : List (Int × Animal)) (k : Int) :
    mapLookup (mapErase m k) k = none := by
  induction m with
  | nil => rfl
  | cons p rest ih =>
    obtain ⟨k', v'⟩ := p
    by_cases h : k' = k
    · simpa [mapErase, h] using ih
    · simpa [mapErase, mapLookup, h] using ih

/-- Writing an absent key appends a new entry at the end. -/
theorem mapInsert_of_absent (m : List (Int × Animal)) (k : Int) (v : Animal)
    (h : mapLookup m k = none) : mapInsert m k v = m ++ [(k, v)] := by
  induction m with
  | nil => rfl
  | cons p rest ih =>
    obtain ⟨k', v'⟩ := p
    by_cases hk : k' = k
    · simp [mapLookup, hk] at h
    · rw [mapLookup, if_neg hk] at h
      simp [mapInsert, hk, ih h]

/-- Characterization of a successful create with an explicit non-zero ID: the
ID was absent, and the new entry is appended with the counter untouched. -/
theorem createAnimal_ok_nonzero {s s' : InMemoryAnimalStore} {r : Animal}
    (hnz : r.ID ≠ 0) (h : CreateAnimal s r = .ok s') :
    mapLookup s.animals r.ID = none ∧
      s' = { s with animals := s.animals ++ [(r.ID, r)] } := by
  unfold CreateAnimal at h
  rw [if_neg hnz] at h
  by_cases hp : (mapLookup s.animals r.ID).isSome
  · rw [if_pos hp] at h; cases h
  · rw [if_neg hp] at h
    have habs : mapLookup s.animals r.ID = none :=
      Option.not_isSome_iff_eq_none.mp hp
    cases h
    exact ⟨habs, by rw [mapInsert_of_absent _ _ _ habs]⟩

/-- After a run of successful creates with non-zero IDs, the map holds the old
entries followed by the new records keyed by their own IDs. -/
theorem createAll_animals (rs : List Animal) :
    ∀ s s' : InMemoryAnimalStore, (∀ r ∈ rs, r.ID ≠ 0) →
      createAll s rs = .ok s' →
      s'.animals = s.animals ++ rs.map (fun r => (r.ID, r)) := by
  induction rs with
  | nil =>
    intro s s' _ h
    rw [createAll] at h
    cases h
    simp
  | cons r rs ih =>
    intro s s' hnz h
    have hr : r.ID ≠ 0 := hnz r (List.mem_cons_self r rs)
    rw [createAll] at h
    cases hC : CreateAnimal s r with
    | error e => rw [hC] at h; cases h
    | ok s₁ =>
      rw [hC] at h
      obtain ⟨_, hs₁⟩ := createAnimal_ok_nonzero hr hC
      have hrest := ih s₁ s' (fun a ha => hnz a (List.mem_cons_of_mem r ha)) h
      rw [hrest, hs₁]
      simp

/-- Inserting a value whose ID equals the key preserves the key/ID agreement. -/
theorem keysMatch_mapInsert {m : List (Int × Animal)} {k : Int} {v : Animal}
    (hm : ∀ p ∈ m, (Prod.snd p).ID = p.1) (hv : v.ID = k) :
    ∀ p ∈ mapInsert m k v, (Prod.snd p).ID = p.1 := by
  induction m with
  | nil =>
    intro p hp
    simp [mapInsert] at hp
    subst hp
    exact hv
  | cons q rest ih =>
    obtain ⟨k', v'⟩ := q
    intro p hp
    by_cases h : k' = k
    · rw [mapInsert, if_pos h] at hp
      rcases List.mem_cons.mp hp with hp | hp
      · subst hp; exact hv
      · exact hm p (List.mem_cons_of_mem _ hp)
    · rw [mapInsert, if_neg h] at hp
      rcases List.mem_cons.mp hp with hp | hp
      · subst hp; exact hm (k', v') (List.mem_cons_self _ _)
      · exact ih (fun q hq => hm q (List.mem_cons_of_mem _ hq)) p hp

/-- Deleting an entry preserves the key/ID agreement. -/
theorem keysMatch_mapErase {m : List (Int × Animal)} {k : Int}
    (hm : ∀ p ∈ m, (Prod.snd p).ID = p.1) :
    ∀ p ∈ mapErase m k, (Prod.snd p).ID = p.1 :=
  fun p hp => hm p (List.mem_of_mem_filter hp)

/-- C1: for every store state and every record `r` with non-zero ID that is
not present in the store, `CreateAnimal` succeeds and `GetAnimalByID r.ID`
on the resulting store returns `r`. -/
theorem C1_create_then_getByID (s : InMemoryAnimalStore) (r : Animal)
    (hnz : r.ID ≠ 0) (habs : mapLookup s.animals r.ID = none) :
    ∃ s', CreateAnimal s r = .ok s' ∧ GetAnimalByID s' r.ID = .ok r := by
  refine ⟨{ s with animals := mapInsert s.animals r.ID r }, ?_, ?_⟩
  · simp [CreateAnimal, hnz, habs]
  · simp [GetAnimalByID, mapLookup_mapInsert_self]

/-- C1 instance: creating the spec's panda record (id 101) in a fresh store
succeeds and reading id 101 back returns it. -/
theorem C1_witness :
    ∃ s', CreateAnimal NewInMemoryAnimalStore panda101 = .ok s' ∧
      GetAnimalByID s' panda101.ID = .ok panda101 :=
  C1_create_then_getByID NewInMemoryAnimalStore panda101 (by decide) rfl

/-- C2: for every store state, id and record, `UpsertAnimal` succeeds, and
`GetAnimalByID id` on the resulting store returns the record with its ID
forced to `id`. -/
theorem C2_upsert_then_getByID (s : InMemoryAnimalStore) (id : Int) (r : Animal) :
    ∃ s', UpsertAnimal s id r = .ok s' ∧
      GetAnimalByID s' id = .ok { r with ID := id } := by
  refine ⟨{ s with animals := mapInsert s.animals id { r with ID := id } }, rfl, ?_⟩
  simp [GetAnimalByID, mapLookup_mapInsert_self]

/-- C3: for every store state and record `r` whose non-zero ID is already
present, `CreateAnimal` returns the already-exists (Conflict) error — and,
since the result is an error, no state change happens — and the POST handler's
independent pre-check agrees, answering 409 with the store untouched. -/
theorem C3_duplicate_create_conflict (s : InMemoryAnimalStore) (r : Animal)
    (hnz : r.ID ≠ 0) (hp : (mapLookup s.animals r.ID).isSome) :
    CreateAnimal s r =
        .error ("animal with ID " ++ toString r.ID ++ " already exists") ∧
      createAnimalHandler s (some r) = ⟨409, s, none⟩ := by
  obtain ⟨a, ha⟩ := Option.isSome_iff_exists.mp hp
  constructor
  · simp [CreateAnimal, hnz, hp]
  · simp [createAnimalHandler, hnz, GetAnimalByID, ha]

/-- C3 instance: re-creating the seeded lion (id 1) yields the Conflict error
and the handler answers 409 leaving the seeded store as it was. -/
theorem C3_witness :
    CreateAnimal seededStore lion =
        .error ("animal with ID " ++ toString lion.ID ++ " already exists") ∧
      createAnimalHandler seededStore (some lion) = ⟨409, seededStore, none⟩ :=
  C3_duplicate_create_conflict seededStore lion (by decide) rfl

/-- C4: for every store state in which `id` is absent, `UpdateAnimal` returns
the not-found-for-update error; the error result carries no new state, so the
store is unchanged — update never creates. -/
theorem C4_update_absent_notfound (s : InMemoryAnimalStore) (id : Int)
    (r : Animal) (habs : mapLookup s.animals id = none) :
    UpdateAnimal s id r =
      .error ("animal with ID " ++ toString id ++ " not found for update") := by
  simp [UpdateAnimal, habs]

/-- C4 instance: updating the never-created id 999 in a fresh store fails with
the not-found-for-update error. -/
theorem C4_witness :
    UpdateAnimal NewInMemoryAnimalStore 999 panda101 =
      .error ("animal with ID " ++ toString (999 : Int) ++ " not found for update") :=
  C4_update_absent_notfound NewInMemoryAnimalStore 999 panda101 rfl

/-- C5: for every store state, parsed path id and decoded body, the PUT
handler discards the body's ID in favor of the path id, answers 200 with the
forced record when the id exists, answers 201 with the forced record when it
is absent, in both cases leaving the forced record stored under the path id —
it never fails. -/
theorem C5_put_handler_branches (s : InMemoryAnimalStore) (id : Int) (b : Animal) :
    ((mapLookup s.animals id).isSome →
        updateAnimalHandler s (some id) (some b) =
          ⟨200, { s with animals := mapInsert s.animals id { b with ID := id } },
            some { b with ID := id }⟩) ∧
      (mapLookup s.animals id = none →
        updateAnimalHandler s (some id) (some b) =
          ⟨201, { s with animals := mapInsert s.animals id { b with ID := id } },
            some { b with ID := id }⟩) ∧
      GetAnimalByID { s with animals := mapInsert s.animals id { b with ID := id } }
          id = .ok { b with ID := id } := by
  refine ⟨?_, ?_, ?_⟩
  · intro hp
    obtain ⟨a, ha⟩ := Option.isSome_iff_exists.mp hp
    simp [updateAnimalHandler, GetAnimalByID, ha, UpdateAnimal, hp]
  · intro habs
    simp [updateAnimalHandler, GetAnimalByID, habs, UpsertAnimal]
  · simp [GetAnimalByID, mapLookup_mapInsert_self]

/-- C6 as frozen is false: starting from the empty store, creating lion
(id 1) and then a zero-ID record both succeed — the zero-ID create is
auto-assigned id 1 and silently replaces lion — yet `GetAllAnimals` then
returns a single record, not the two created ones, and lion is not in it. -/
theorem C6_counterexample :
    createAll NewInMemoryAnimalStore [lion, pandaZero] =
        .ok { animals := [(1, { pandaZero with ID := 1 })], nextID := 2 } ∧
      GetAllAnimals { animals := [(1, { pandaZero with ID := 1 })], nextID := 2 } =
        .ok [{ pandaZero with ID := 1 }] ∧
      lion ∉ [{ pandaZero with ID := 1 }] ∧
      ([{ pandaZero with ID := 1 }] : List Animal).length ≠
        ([lion, pandaZero] : List Animal).length := by
  exact ⟨rfl, rfl, by decide, by decide⟩

/-- C6 amended: `GetAllAnimals` on the fresh (empty) store returns the
no-animals-found error, and after any nonempty run of successful creates with
non-zero IDs starting from the empty store it returns exactly the created
records, up to order. -/
theorem C6_list_after_creates (rs : List Animal) (s' : InMemoryAnimalStore)
    (hnz : ∀ r ∈ rs, r.ID ≠ 0) (hne : rs ≠ [])
    (h : createAll NewInMemoryAnimalStore rs = .ok s') :
    GetAllAnimals NewInMemoryAnimalStore = .error "no animals found" ∧
      ∃ l, GetAllAnimals s' = .ok l ∧ l.Perm rs := by
  have hanim := createAll_animals rs NewInMemoryAnimalStore s' hnz h
  have hmap : s'.animals.map Prod.snd = rs := by
    simp [hanim, NewInMemoryAnimalStore, Function.comp_def]
  refine ⟨rfl, rs, ?_, List.Perm.refl rs⟩
  have hlen : s'.animals.length ≠ 0 := by
    simp [hanim, NewInMemoryAnimalStore]
    exact hne
  rw [GetAllAnimals, if_neg hlen, hmap]

/-- C6 amended instance: after creating lion then eagle from the fresh store,
the fresh store still lists as the no-animals-found error while the resulting
store lists exactly lion and eagle. -/
theorem C6_witness :
    GetAllAnimals NewInMemoryAnimalStore = .error "no animals found" ∧
      ∃ l, GetAllAnimals { animals := [(1, lion), (2, eagle)], nextID := 1 } =
        .ok l ∧ l.Perm [lion, eagle] :=
  C6_list_after_creates [lion, eagle]
    { animals := [(1, lion), (2, eagle)], nextID := 1 }
    (by decide) (by decide) rfl

/-- C7: for every store state, creating a record with the zero/unset ID is
not rejected: the store assigns it id `nextID`, bumps the counter by one, and
stores it under the assigned id. -/
theorem C7_zero_id_autoassign (s : InMemoryAnimalStore) (r : Animal)
    (h0 : r.ID = 0) :
    ∃ s', CreateAnimal s r = .ok s' ∧ s'.nextID = s.nextID + 1 ∧
      GetAnimalByID s' s.nextID = .ok { r with ID := s.nextID } := by
  refine ⟨{ s with
              animals := mapInsert s.animals s.nextID { r with ID := s.nextID },
              nextID := s.nextID + 1 }, ?_, rfl, ?_⟩
  · simp [CreateAnimal, h0]
  · simp [GetAnimalByID, mapLookup_mapInsert_self]

/-- C7 instance: creating the zero-ID panda in a fresh store assigns it id 1
(the counter value), bumps the counter to 2, and stores it under id 1. -/
theorem C7_witness :
    ∃ s', CreateAnimal NewInMemoryAnimalStore pandaZero = .ok s' ∧
      s'.nextID = NewInMemoryAnimalStore.nextID + 1 ∧
      GetAnimalByID s' NewInMemoryAnimalStore.nextID =
        .ok { pandaZero with ID := NewInMemoryAnimalStore.nextID } :=
  C7_zero_id_autoassign NewInMemoryAnimalStore pandaZero rfl

/-- C8: for every store state, when `id` is present `DeleteAnimal` succeeds
and `GetAnimalByID id` afterwards returns the not-found error, and when `id`
is absent `DeleteAnimal` returns the not-found-for-deletion error. -/
theorem C8_delete_then_getByID (s : InMemoryAnimalStore) (id : Int) :
    ((mapLookup s.animals id).isSome →
        DeleteAnimal s id = .ok { s with animals := mapErase s.animals id } ∧
          GetAnimalByID { s with animals := mapErase s.animals id } id =
            .error ("animal with ID " ++ toString id ++ " not found")) ∧
      (mapLookup s.animals id = none →
        DeleteAnimal s id =
          .error ("animal with ID " ++ toString id ++ " not found for deletion")) := by
  constructor
  · intro hp
    refine ⟨by simp [DeleteAnimal, hp], ?_⟩
    simp [GetAnimalByID, mapLookup_mapErase_self]
  · intro habs
    simp [DeleteAnimal, habs]

/-- C9: in every store state reachable from the fresh store by successful
create, update, upsert and delete calls, every stored record's ID field
equals its map key. -/
theorem C9_reachable_keys_match (s : InMemoryAnimalStore) (h : Reachable s) :
    KeysMatch s := by
  induction h with
  | init => intro p hp; cases hp
  | create hR hc ih =>
    unfold CreateAnimal at hc
    split at hc
    · cases hc
      exact keysMatch_mapInsert ih rfl
    · split at hc
      · cases hc
      · cases hc
        exact keysMatch_mapInsert ih rfl
  | update hR hc ih =>
    unfold UpdateAnimal at hc
    split at hc
    · cases hc
      exact keysMatch_mapInsert ih rfl
    · cases hc
  | upsert hR hc ih =>
    cases hc
    exact keysMatch_mapInsert ih rfl
  | delete hR hc ih =>
    unfold DeleteAnimal at hc
    split at hc
    · cases hc
      exact keysMatch_mapErase ih
    · cases hc

/-- C9 instance: the seeded store is reachable (three successful creates from
the fresh store) and satisfies the key/ID agreement. -/
theorem C9_witness : Reachable seededStore ∧ KeysMatch seededStore := by
  have r1 : Reachable { animals := [(1, lion)], nextID := 1 } :=
    Reachable.create (r := lion) Reachable.init rfl
  have r2 : Reachable { animals := [(1, lion), (2, eagle)], nextID := 1 } :=
    Reachable.create (r := eagle) r1 rfl
  have r3 : Reachable seededStore := Reachable.create (r := snake) r2 rfl
  exact ⟨r3, C9_reachable_keys_match seededStore r3⟩

/-- C10: a zero-ID create never errors in any state, and performs no duplicate
check on the auto-assigned id: after the three seeded creates the counter is
still 1 while id 1 holds lion, and a zero-ID create then succeeds, storing the
new record (which differs from lion) over id 1 instead of reporting Conflict. -/
theorem C10_zero_id_create_replaces :
    (∀ (s : InMemoryAnimalStore) (r : Animal), r.ID = 0 →
        ∃ s', CreateAnimal s r = .ok s') ∧
      createAll NewInMemoryAnimalStore [lion, eagle, snake] = .ok seededStore ∧
      seededStore.nextID = 1 ∧
      mapLookup seededStore.animals 1 = some lion ∧
      CreateAnimal seededStore pandaZero =
        .ok { animals := [(1, { pandaZero with ID := 1 }), (2, eagle), (3, snake)],
              nextID := 2 } ∧
      { pandaZero with ID := 1 } ≠ lion := by
  refine ⟨?_, rfl, rfl, rfl, rfl, by decide⟩
  intro s r h0
  refine ⟨{ s with
              animals := mapInsert s.animals s.nextID { r with ID := s.nextID },
              nextID := s.nextID + 1 }, ?_⟩
  simp [CreateAnimal, h0]

end AnekaZoo
